import Mathlib

/-!
Shallow embedding of the `timeserver` web server (`src/server.go`, plus the
older variant in `src/unnamed/part_000`) and proofs about its session-identity
subsystem: name validation on login, the identity registry, cookie issuance,
and the per-route request handlers.

Modelling conventions:
 - Go strings are `String` / `List Char`.
 - The HTTP response produced by a handler is reified as a `Response` record:
   the effective status code (200 when the handler never calls `WriteHeader`,
   since Go's `net/http` then writes an implicit 200), an optional redirect
   target, an optional `Set-Cookie` directive, and an optional render call
   (template name plus data payload).
 - Wall-clock time is passed in as an opaque pre-formatted string parameter.
 - The identifier generated by the `people` package for a new `Person` is
   passed in as an explicit `freshId` parameter of the login handler.
-/

set_option autoImplicit false

namespace Timeserver

/-! ### Name validation

`handleLogin` (src/server.go line 78) accepts a submitted name iff it matches
the anchored regular expression `^[a-zA-Z]{2,35} \x7b0,1\x7d[a-zA-Z]{0,35}$`.
We embed the language of that regular expression directly: a first run of
2 to 35 ASCII letters, then an optional single space, then a run of 0 to 35
ASCII letters, consuming the whole string.
-/

/-- The character class `[a-zA-Z]` of the login regex: ASCII alphabetic. -/
def isAlphaChar (c : Char) : Bool :=
  ('a' ≤ c && c ≤ 'z') || ('A' ≤ c && c ≤ 'Z')

/-- Every character of the list is ASCII alphabetic. -/
def allAlpha (cs : List Char) : Bool :=
  cs.all isAlphaChar

/-- Residual match for the suffix ` \x7b0,1\x7d[a-zA-Z]{0,35}$` of the login
regex: the remaining input is empty, or starts with the optional single space
followed by at most 35 letters, or is itself at most 35 letters (a space can
only be consumed by the optional-space piece, a letter only by the final
run). -/
def tailMatch (cs : List Char) : Bool :=
  match cs with
  | [] => true
  | c :: rest =>
    if c = ' ' then allAlpha rest && rest.length ≤ 35
    else allAlpha (c :: rest) && (c :: rest).length ≤ 35

/-- Membership in the language of the login regex
`^[a-zA-Z]{2,35} \x7b0,1\x7d[a-zA-Z]{0,35}$` over a character list: some
prefix of 2 to 35 letters is followed by a residual match. The `any` over
`List.range 34` enumerates the lengths 2..35 the backtracking first run can
take. -/
def validName (cs : List Char) : Bool :=
  (List.range 34).any fun k =>
    let la := k + 2
    decide (la ≤ cs.length) && allAlpha (cs.take la) && tailMatch (cs.drop la)

/-- `regexp.MatchString` of src/server.go line 78, on a Go string. -/
def validNameStr (s : String) : Bool :=
  validName s.data

/-- Declarative characterization of the login regex language: the string
splits as a first all-letter run of length 2..35, an optional single space,
and a second all-letter run of length at most 35. -/
def regexLang (cs : List Char) : Prop :=
  ∃ a s b, cs = a ++ s ++ b ∧ allAlpha a = true ∧ 2 ≤ a.length ∧
    a.length ≤ 35 ∧ (s = [] ∨ s = [' ']) ∧ allAlpha b = true ∧ b.length ≤ 35

/-- The grammar as the specification words it: one run of 2 to 35 letters,
optionally followed by a single space and a second run of 0 to 35 letters —
with the space mandatory whenever a second run follows, so a single
overlong run (36 letters or more) is rejected. Stated for comparison with
`validName`, the language of the regex actually in the source. -/
def claimedGrammarTail (cs : List Char) : Bool :=
  match cs with
  | [] => true
  | c :: rest => c == ' ' && allAlpha rest && rest.length ≤ 35

/-- The claimed grammar (see `claimedGrammarTail`): first run of 2..35
letters, then nothing, or a single space and 0..35 more letters. -/
def claimedGrammar (cs : List Char) : Bool :=
  (List.range 34).any fun k =>
    let la := k + 2
    decide (la ≤ cs.length) && allAlpha (cs.take la) && claimedGrammarTail (cs.drop la)

/-! ### The people registry

Modelled from the spec: the `people` package
(`github.com/patkaehuaea/server/people`: `NewUsers`, `NewPerson`,
`Users.Add`, `Users.Name`, `Person.ID`, `Person.Name`) is not among the
sources. Per spec §3/§4.1: a `Person` is an immutable record of an opaque
generated identifier and a validated display name; the registry maps
identifier to Person, `Add(person)` inserts keyed by its id (uniqueness
guaranteed by the caller generating a fresh identifier), and `NameOf(id)`
returns the name of the Person with that id or an empty result on a miss,
never failing. We model the registry as an association list (newest entry
first) and id generation as an explicit parameter. -/

structure Person where
  id : String
  name : String
deriving DecidableEq, Repr

/-- Modelled from the spec: the registry is a mapping id → Person, realized
as an association list; `people.NewUsers()` is the empty list. -/
abbrev Users := List Person

/-- Modelled from the spec: `people.NewPerson(name)` constructs a Person
with a freshly generated identifier; the generated identifier is passed in
explicitly as `id`. -/
def NewPerson (id name : String) : Person :=
  ⟨id, name⟩

/-- Modelled from the spec: `Users.Add(person)` inserts a Person keyed by
its id; the registry grows by one entry. -/
def Users.add (us : Users) (p : Person) : Users :=
  p :: us

/-- Modelled from the spec: `Users.Name(id)` (the spec's `NameOf`) returns
the name of the Person with that id, or the empty string when no such id
exists; a miss is a normal outcome, never an error. -/
def Users.name (us : Users) (id : String) : String :=
  match us.find? (fun p => p.id == id) with
  | some p => p.name
  | none => ""

/-! ### HTTP request/response model -/

/-- The `uuid` cookie name (src/server.go `COOKIE_NAME`). -/
def COOKIE_NAME : String := "uuid"

/-- Login cookie lifetime in seconds (src/server.go `COOKIE_MAX_AGE`). -/
def COOKIE_MAX_AGE : Int := 86400

/-- One `Set-Cookie` directive as produced by `setCookie`
(src/server.go lines 150-153): fixed name, given value, root path, given
max-age. -/
structure SetCookieDirective where
  cookieName : String
  value : String
  path : String
  maxAge : Int
deriving DecidableEq, Repr

/-- Data payload handed to the renderer: Go `nil`, a plain string, or the
`\x7b"time": ..., "name": ...\x7d` map of `handleTime`. -/
inductive ViewData where
  | empty : ViewData
  | str : String → ViewData
  | timeParams : (time : String) → (userName : String) → ViewData
deriving DecidableEq, Repr

/-- A call to `renderTemplate`: template name (without the `.html` suffix)
and data payload. -/
structure RenderCall where
  view : String
  data : ViewData
deriving DecidableEq, Repr

/-- An incoming HTTP request as the handlers observe it: method, path, the
value of the `uuid` cookie when present, and `r.FormValue("name")`. -/
structure Request where
  method : String
  path : String
  cookie : Option String
  formName : String
deriving DecidableEq, Repr

/-- The response a handler produces. `status` is the effective HTTP status:
200 when the handler finishes without calling `WriteHeader` (Go then sends
an implicit 200). -/
structure Response where
  status : Nat
  redirect : Option String
  setCookie : Option SetCookieDirective
  rendered : Option RenderCall
deriving DecidableEq, Repr

/-! ### Handlers (src/server.go) -/

/-- `idFromUUIDCookie` (src/server.go lines 119-127) as its callers use it:
both callers discard the error, so a missing cookie yields the empty
string. -/
def idFromUUIDCookie (r : Request) : String :=
  match r.cookie with
  | some v => v
  | none => ""

/-- `handleDefault` (src/server.go lines 53-63): if the cookie's id resolves
to a non-empty name, render the `greetings` view with it; otherwise redirect
302 to `/login`. -/
def handleDefault (us : Users) (r : Request) : Response × Users :=
  let id := idFromUUIDCookie r
  let nm := us.name id
  if nm ≠ "" then
    ({ status := 200, redirect := none, setCookie := none,
       rendered := some ⟨"greetings", ViewData.str nm⟩ }, us)
  else
    ({ status := 302, redirect := some "/login", setCookie := none,
       rendered := none }, us)

/-- `handleLogin` (src/server.go lines 67-95). GET renders the login form.
POST validates `name` against the regex: on a match it constructs a Person
with the freshly generated identifier, adds it to the registry, sets the
session cookie and redirects 302 to `/`; on a mismatch it writes status 400
and re-renders the login view with the validation-error message. Any other
method only logs, writing nothing. -/
def handleLogin (us : Users) (freshId : String) (r : Request) : Response × Users :=
  if r.method = "GET" then
    ({ status := 200, redirect := none, setCookie := none,
       rendered := some ⟨"login", ViewData.empty⟩ }, us)
  else if r.method = "POST" then
    let nm := r.formName
    if validNameStr nm then
      let person := NewPerson freshId nm
      ({ status := 302, redirect := some "/",
         setCookie := some ⟨COOKIE_NAME, person.id, "/", COOKIE_MAX_AGE⟩,
         rendered := none }, us.add person)
    else
      ({ status := 400, redirect := none, setCookie := none,
         rendered := some ⟨"login", ViewData.str "C\x27mon, I need a name."⟩ }, us)
  else
    ({ status := 200, redirect := none, setCookie := none,
       rendered := none }, us)

/-- `handleLogout` (src/server.go lines 97-102): unconditionally set the
cookie to the sentinel value `deleted` with max-age -1 and render the
`logged-out` view. -/
def handleLogout (us : Users) (r : Request) : Response × Users :=
  ({ status := 200, redirect := none,
     setCookie := some ⟨COOKIE_NAME, "deleted", "/", -1⟩,
     rendered := some ⟨"logged-out", ViewData.empty⟩ }, us)

/-- `handleNotFound` (src/server.go lines 104-108): status 404 and the `404`
view. -/
def handleNotFound (us : Users) (r : Request) : Response × Users :=
  ({ status := 404, redirect := none, setCookie := none,
     rendered := some ⟨"404", ViewData.empty⟩ }, us)

/-- `handleTime` (src/server.go lines 110-117): render the `time` view with
the current formatted time (`now`, passed in) and the name resolved from the
cookie id (empty on any miss). -/
def handleTime (us : Users) (now : String) (r : Request) : Response × Users :=
  let id := idFromUUIDCookie r
  ({ status := 200, redirect := none, setCookie := none,
     rendered := some ⟨"time", ViewData.timeParams now (us.name id)⟩ }, us)

/-- The mux routing table of `main` (src/server.go lines 168-174): `/` and
`/index.html` to the default handler, `/login`, `/logout`, `/time` to
theirs, everything else to the not-found handler. -/
def route (us : Users) (freshId now : String) (r : Request) : Response × Users :=
  if r.path = "/" ∨ r.path = "/index.html" then handleDefault us r
  else if r.path = "/login" then handleLogin us freshId r
  else if r.path = "/logout" then handleLogout us r
  else if r.path = "/time" then handleTime us now r
  else handleNotFound us r

/-! ### Render-failure model (src/server.go lines 139-146)

`renderTemplate` runs `templates.ExecuteTemplate`; on error the source first
calls `log.Fatal` (logrus: log the message, then `os.Exit(1)`) and only then
`http.Error(w, err.Error(), http.StatusInternalServerError)`. We reify the
body as the ordered list of effects the source text specifies and a separate
execution function that truncates at the first `logFatal`, since `os.Exit`
terminates the process. -/

inductive RenderEffect where
  | logFatal : String → RenderEffect
  | httpError : (status : Nat) → (msg : String) → RenderEffect
  | writeView : String → RenderEffect
deriving DecidableEq, Repr

/-- The effect sequence written in `renderTemplate` (src/server.go lines
140-146): a successful lookup of `templ ++ ".html"` among the parsed
templates writes the view; otherwise the source text performs `log.Fatal`
followed by `http.Error` with status 500. -/
def renderTemplateEffects (available : List String) (templ : String) : List RenderEffect :=
  if (templ ++ ".html") ∈ available then
    [RenderEffect.writeView templ]
  else
    [RenderEffect.logFatal ("Error looking for template: " ++ templ),
     RenderEffect.httpError 500 "template error"]

/-- Effects that actually execute: logrus `log.Fatal` calls `os.Exit(1)`
after logging, so nothing after the first `logFatal` runs. -/
def executedEffects : List RenderEffect → List RenderEffect
  | [] => []
  | RenderEffect.logFatal m :: _ => [RenderEffect.logFatal m]
  | e :: rest => e :: executedEffects rest

/-- The process terminated during this effect list (a `logFatal` ran). -/
def processTerminated (effs : List RenderEffect) : Bool :=
  effs.any fun e =>
    match e with
    | RenderEffect.logFatal _ => true
    | _ => false

/-- Some `http.Error` write is present in this effect list. -/
def wroteHttpError (effs : List RenderEffect) : Bool :=
  effs.any fun e =>
    match e with
    | RenderEffect.httpError _ _ => true
    | _ => false

/-! ### Process bootstrap (the two `main` variants) -/

inductive MainOutcome where
  | printVersionAndExit : (printed : String) → (exitCode : Nat) → MainOutcome
  | serve : (addr : String) → MainOutcome
deriving DecidableEq, Repr

/-- `main` of src/server.go (lines 155-177): flags are parsed, the listen
address is built from the parsed `--port` value (default "8080"), and with
`-V` the version line is printed and the process exits with code 1 before
any server starts; otherwise the server binds and serves on the address. -/
def serverMain (portFlag : String) (vFlag : Bool) : MainOutcome :=
  let portParam := ":" ++ portFlag
  if vFlag then MainOutcome.printVersionAndExit "Version number: v1.0.8 \n" 1
  else MainOutcome.serve portParam

/-- `main` of src/unnamed/part_000 (lines 41-61): `portString` is computed
from `*portPtr` BEFORE `flag.Parse()` runs, while the flag still holds its
default "8080", so the parsed `--port` value never reaches the listen
address. -/
def part000Main (portFlag : String) (vFlag : Bool) : MainOutcome :=
  let portString := ":" ++ "8080"
  if vFlag then MainOutcome.printVersionAndExit "Version number: v1.0.1 \n" 1
  else MainOutcome.serve portString

/-! ### Registry lemmas -/

theorem Users.name_add_self (us : Users) (p : Person) :
    (us.add p).name p.id = p.name := by
  simp [Users.add, Users.name, List.find?_cons_of_pos]

theorem Users.name_add_other (us : Users) (p : Person) (id : String) (h : p.id ≠ id) :
    (us.add p).name id = us.name id := by
  have hbeq : (p.id == id) = false := by
    simpa using h
  simp [Users.add, Users.name, List.find?_cons_of_neg, hbeq]

theorem Users.name_eq_of_find?_none (us : Users) (id : String)
    (h : us.find? (fun p => p.id == id) = none) : us.name id = "" := by
  simp [Users.name, h]

theorem Users.name_eq_of_find?_some (us : Users) (id : String) (p : Person)
    (h : us.find? (fun p => p.id == id) = some p) : us.name id = p.name := by
  simp [Users.name, h]

theorem Users.name_empty_of_no_id (us : Users) (id : String)
    (h : ∀ p ∈ us, p.id ≠ id) : us.name id = "" := by
  apply Users.name_eq_of_find?_none
  rw [List.find?_eq_none]
  intro p hp
  simpa using h p hp

/-! ### Claim C2: the login validation grammar -/

theorem isAlphaChar_ne_space {c : Char} (h : isAlphaChar c = true) : c ≠ ' ' := by
  intro hEq
  rw [hEq] at h
  exact absurd h (by decide)

theorem tailMatch_cons (c : Char) (r : List Char) :
    tailMatch (c :: r) =
      if c = ' ' then allAlpha r && decide (r.length ≤ 35)
      else allAlpha (c :: r) && decide ((c :: r).length ≤ 35) := rfl

/-- C2 counterexample: the claim states that a single run of 36 letters is
rejected, but the code's regex accepts it (first run 35 letters, empty
optional space, second run 1 letter), and `handleLogin` accepts the
submission with a 302 redirect. The claimed grammar rejects the same
string. -/
theorem valid_name_claim_counterexample :
    validName (List.replicate 36 'a') = true ∧
    claimedGrammar (List.replicate 36 'a') = false ∧
    (handleLogin [] "id-1" ⟨"POST", "/login", none, ⟨List.replicate 36 'a'⟩⟩).1.status = 302 := by
  refine ⟨by decide, by decide, ?_⟩
  decide

/-- C2 amended: a submitted name is accepted by the login validation iff it
is the concatenation of a run of 2–35 ASCII letters, an optional single
space, and a run of 0–35 ASCII letters; since the space is optional, the
two letter runs may be adjacent, so in particular single words of up to 70
letters are accepted. -/
theorem valid_name_characterization (s : String) :
    validNameStr s = true ↔ regexLang s.data := by
  rw [validNameStr]
  generalize s.data = cs
  constructor
  · intro h
    rw [validName, List.any_eq_true] at h
    obtain ⟨k, hk, hpred⟩ := h
    rw [List.mem_range] at hk
    simp only [Bool.and_eq_true, decide_eq_true_eq] at hpred
    obtain ⟨⟨hlen, halpha⟩, htail⟩ := hpred
    have hcs : cs = cs.take (k + 2) ++ cs.drop (k + 2) := (List.take_append_drop _ _).symm
    have halen : (cs.take (k + 2)).length = k + 2 := by
      rw [List.length_take]
      exact Nat.min_eq_left hlen
    rcases hdrop : cs.drop (k + 2) with _ | ⟨c, r⟩
    · refine ⟨cs.take (k + 2), [], [], ?_, halpha, ?_, ?_, Or.inl rfl, rfl, by simp⟩
      · rw [hdrop] at hcs
        simpa using hcs
      · omega
      · omega
    · rw [hdrop] at htail hcs
      rw [tailMatch_cons] at htail
      by_cases hc : c = ' '
      · rw [if_pos hc] at htail
        simp only [Bool.and_eq_true, decide_eq_true_eq] at htail
        refine ⟨cs.take (k + 2), [' '], r, ?_, halpha, by omega, by omega,
          Or.inr rfl, htail.1, htail.2⟩
        rw [List.append_assoc, List.singleton_append, ← hc]
        exact hcs
      · rw [if_neg hc] at htail
        simp only [Bool.and_eq_true, decide_eq_true_eq] at htail
        refine ⟨cs.take (k + 2), [], c :: r, ?_, halpha, by omega, by omega,
          Or.inl rfl, htail.1, htail.2⟩
        rw [List.append_nil]
        exact hcs
  · rintro ⟨a, t, b, hcs, halpha, h2, h35, ht, hb, hb35⟩
    rw [validName, List.any_eq_true]
    refine ⟨a.length - 2, by rw [List.mem_range]; omega, ?_⟩
    show (decide (a.length - 2 + 2 ≤ cs.length) &&
      allAlpha (cs.take (a.length - 2 + 2)) && tailMatch (cs.drop (a.length - 2 + 2))) = true
    have hla : a.length - 2 + 2 = a.length := by omega
    rw [hla]
    have htake : cs.take a.length = a := by
      rw [hcs, List.append_assoc]
      exact List.take_left a (t ++ b)
    have hdropped : cs.drop a.length = t ++ b := by
      rw [hcs, List.append_assoc]
      exact List.drop_left a (t ++ b)
    have hlen : a.length ≤ cs.length := by
      rw [hcs]
      simp [List.length_append]
    rw [htake, hdropped]
    simp only [Bool.and_eq_true, decide_eq_true_eq]
    refine ⟨⟨hlen, halpha⟩, ?_⟩
    rcases ht with rfl | rfl
    · rw [List.nil_append]
      cases b with
      | nil => rfl
      | cons c r =>
        have hcalpha : isAlphaChar c = true := by
          have hb2 := hb
          simp only [allAlpha, List.all_cons, Bool.and_eq_true] at hb2
          exact hb2.1
        rw [tailMatch_cons, if_neg (isAlphaChar_ne_space hcalpha)]
        simp only [Bool.and_eq_true, decide_eq_true_eq]
        exact ⟨hb, hb35⟩
    · rw [List.singleton_append]
      rw [tailMatch_cons, if_pos rfl]
      simp only [Bool.and_eq_true, decide_eq_true_eq]
      exact ⟨hb, hb35⟩

/-! ### Claims about the request handlers -/

/-- C1: for every name accepted by the validation grammar, a POST to /login
creates exactly one new registry entry — a Person with the freshly generated
identifier and the submitted name — sets the cookie uuid=newid with Max-Age
86400 and Path /, responds 302 redirect to /, and NameOf on the new
identifier returns exactly the submitted name; every other identifier
resolves exactly as before, and the new identifier was not present
before. -/
theorem login_valid_submit (us : Users) (freshId : String) (r : Request)
    (hpost : r.method = "POST") (hvalid : validNameStr r.formName = true)
    (hfresh : ∀ p ∈ us, p.id ≠ freshId) :
    handleLogin us freshId r =
      ({ status := 302, redirect := some "/",
         setCookie := some ⟨"uuid", freshId, "/", 86400⟩, rendered := none },
        NewPerson freshId r.formName :: us) ∧
    (handleLogin us freshId r).2.length = us.length + 1 ∧
    Users.name (handleLogin us freshId r).2 freshId = r.formName ∧
    (∀ id, id ≠ freshId → Users.name (handleLogin us freshId r).2 id = us.name id) ∧
    us.name freshId = "" := by
  have h1 : handleLogin us freshId r =
      ({ status := 302, redirect := some "/",
         setCookie := some ⟨"uuid", freshId, "/", 86400⟩, rendered := none },
        NewPerson freshId r.formName :: us) := by
    simp [handleLogin, hpost, hvalid, Users.add, COOKIE_NAME, COOKIE_MAX_AGE, NewPerson]
  refine ⟨h1, ?_, ?_, ?_, ?_⟩
  · rw [h1]
    rfl
  · rw [h1]
    exact Users.name_add_self us (NewPerson freshId r.formName)
  · intro id hid
    rw [h1]
    exact Users.name_add_other us (NewPerson freshId r.formName) id (Ne.symm hid)
  · exact Users.name_empty_of_no_id us freshId hfresh

theorem login_valid_submit_witness :
    handleLogin [] "id-1" ⟨"POST", "/login", none, "Jane Doe"⟩ =
      ({ status := 302, redirect := some "/",
         setCookie := some ⟨"uuid", "id-1", "/", 86400⟩, rendered := none },
        [NewPerson "id-1" "Jane Doe"]) ∧
    (handleLogin [] "id-1" ⟨"POST", "/login", none, "Jane Doe"⟩).2.length = 1 ∧
    Users.name (handleLogin [] "id-1" ⟨"POST", "/login", none, "Jane Doe"⟩).2 "id-1" = "Jane Doe" ∧
    Users.name (handleLogin [] "id-1" ⟨"POST", "/login", none, "Jane Doe"⟩).2 "other" = Users.name [] "other" ∧
    Users.name [] "id-1" = "" := by
  obtain ⟨h1, h2, h3, h4, h5⟩ :=
    login_valid_submit [] "id-1" ⟨"POST", "/login", none, "Jane Doe"⟩ rfl (by decide) (by simp)
  exact ⟨h1, h2, h3, h4 "other" (by decide), h5⟩

/-- C3: for every name rejected by the validation regex, a POST to /login
responds HTTP 400 and re-renders the login view with the validation-error
message, mutating neither the registry nor any cookie. -/
theorem login_invalid_submit (us : Users) (freshId : String) (r : Request)
    (hpost : r.method = "POST") (hinvalid : validNameStr r.formName = false) :
    handleLogin us freshId r =
      ({ status := 400, redirect := none, setCookie := none,
         rendered := some ⟨"login", ViewData.str "C\x27mon, I need a name."⟩ }, us) := by
  simp [handleLogin, hpost, hinvalid]

theorem login_invalid_submit_witness :
    handleLogin [] "id-1" ⟨"POST", "/login", none, "A1"⟩ =
      ({ status := 400, redirect := none, setCookie := none,
         rendered := some ⟨"login", ViewData.str "C\x27mon, I need a name."⟩ }, []) :=
  login_invalid_submit [] "id-1" ⟨"POST", "/login", none, "A1"⟩ rfl (by decide)

/-- C4: on a GET of / or /index.html, if the cookie identifier resolves in
the registry (whose entries all have non-empty generated ids and validated
non-empty names) the response is a 200 render of the greetings view with
the resolved name; with no cookie, or with an identifier missing from the
registry, it is a 302 redirect to /login with no body rendered. -/
theorem default_route_cases (us : Users) (r : Request)
    (hids : ∀ p ∈ us, p.id ≠ "")
    (hnames : ∀ p ∈ us, p.name ≠ "") :
    (r.cookie = none →
      handleDefault us r =
        ({ status := 302, redirect := some "/login", setCookie := none,
           rendered := none }, us)) ∧
    (∀ id, r.cookie = some id → us.find? (fun p => p.id == id) = none →
      handleDefault us r =
        ({ status := 302, redirect := some "/login", setCookie := none,
           rendered := none }, us)) ∧
    (∀ id p, r.cookie = some id → us.find? (fun p => p.id == id) = some p →
      handleDefault us r =
        ({ status := 200, redirect := none, setCookie := none,
           rendered := some ⟨"greetings", ViewData.str p.name⟩ }, us)) := by
  refine ⟨?_, ?_, ?_⟩
  · intro hc
    have hname : us.name (idFromUUIDCookie r) = "" := by
      have hid : idFromUUIDCookie r = "" := by simp [idFromUUIDCookie, hc]
      rw [hid]
      exact Users.name_empty_of_no_id us "" hids
    simp [handleDefault, hname]
  · intro id hc hfind
    have hname : us.name (idFromUUIDCookie r) = "" := by
      have hid : idFromUUIDCookie r = id := by simp [idFromUUIDCookie, hc]
      rw [hid]
      exact Users.name_eq_of_find?_none us id hfind
    simp [handleDefault, hname]
  · intro id p hc hfind
    have hname : us.name (idFromUUIDCookie r) = p.name := by
      have hid : idFromUUIDCookie r = id := by simp [idFromUUIDCookie, hc]
      rw [hid]
      exact Users.name_eq_of_find?_some us id p hfind
    have hpne : p.name ≠ "" := hnames p (List.mem_of_find?_eq_some hfind)
    simp [handleDefault, hname, hpne]

theorem default_route_cases_witness :
    handleDefault [⟨"u1", "Jane Doe"⟩] ⟨"GET", "/", none, ""⟩ =
      ({ status := 302, redirect := some "/login", setCookie := none,
         rendered := none }, [⟨"u1", "Jane Doe"⟩]) ∧
    handleDefault [⟨"u1", "Jane Doe"⟩] ⟨"GET", "/", some "u1", ""⟩ =
      ({ status := 200, redirect := none, setCookie := none,
         rendered := some ⟨"greetings", ViewData.str "Jane Doe"⟩ },
       [⟨"u1", "Jane Doe"⟩]) := by
  constructor
  · exact (default_route_cases [⟨"u1", "Jane Doe"⟩] ⟨"GET", "/", none, ""⟩
      (by decide) (by decide)).1 rfl
  · exact (default_route_cases [⟨"u1", "Jane Doe"⟩] ⟨"GET", "/", some "u1", ""⟩
      (by decide) (by decide)).2.2 "u1" ⟨"u1", "Jane Doe"⟩ rfl (by decide)

/-- C5: when the requested view is missing, the source text of
`renderTemplate` performs `log.Fatal` and then an `http.Error` 500 write —
but `log.Fatal` terminates the process, so the effects that actually
execute contain no 500 write: the process dies without the response error
the claim describes. Evaluated at a template set lacking `greetings`. -/
theorem render_missing_template_fatal_no_500 :
    renderTemplateEffects ["login.html", "logged-out.html", "time.html", "404.html"] "greetings" =
      [RenderEffect.logFatal "Error looking for template: greetings",
       RenderEffect.httpError 500 "template error"] ∧
    executedEffects
        (renderTemplateEffects ["login.html", "logged-out.html", "time.html", "404.html"] "greetings") =
      [RenderEffect.logFatal "Error looking for template: greetings"] ∧
    processTerminated
        (executedEffects
          (renderTemplateEffects ["login.html", "logged-out.html", "time.html", "404.html"] "greetings")) = true ∧
    wroteHttpError
        (executedEffects
          (renderTemplateEffects ["login.html", "logged-out.html", "time.html", "404.html"] "greetings")) = false := by
  refine ⟨?_, ?_, ?_, ?_⟩ <;> decide

theorem handleDefault_registry (us : Users) (r : Request) :
    (handleDefault us r).2 = us := by
  unfold handleDefault
  by_cases h : us.name (idFromUUIDCookie r) ≠ ""
  · simp [h]
  · simp [h]

theorem handleLogin_registry (us : Users) (freshId : String) (r : Request) :
    (handleLogin us freshId r).2 = us ∨
      (r.method = "POST" ∧ validNameStr r.formName = true ∧
        (handleLogin us freshId r).2 = NewPerson freshId r.formName :: us) := by
  unfold handleLogin
  by_cases hg : r.method = "GET"
  · left
    simp [hg]
  · by_cases hp : r.method = "POST"
    · by_cases hv : validNameStr r.formName = true
      · right
        exact ⟨hp, hv, by simp [hg, hp, hv, Users.add]⟩
      · left
        simp [hg, hp, hv]
    · left
      simp [hg, hp]

/-- C6: across every handled request the registry only grows: every route
leaves it unchanged except a POST to /login with a valid name, which
prepends exactly one Person carrying the freshly generated identifier; and
distinctness of identifiers (at most one Person per id) is preserved
whenever the generated identifier is fresh. -/
theorem registry_append_only (us : Users) (freshId now : String) (r : Request)
    (hfresh : ∀ p ∈ us, p.id ≠ freshId)
    (hnodup : (us.map Person.id).Nodup) :
    ((route us freshId now r).2 = us ∨
      (r.path = "/login" ∧ r.method = "POST" ∧ validNameStr r.formName = true ∧
        (route us freshId now r).2 = NewPerson freshId r.formName :: us)) ∧
    ((route us freshId now r).2.map Person.id).Nodup := by
  have hmain : (route us freshId now r).2 = us ∨
      (r.path = "/login" ∧ r.method = "POST" ∧ validNameStr r.formName = true ∧
        (route us freshId now r).2 = NewPerson freshId r.formName :: us) := by
    unfold route
    by_cases h1 : r.path = "/" ∨ r.path = "/index.html"
    · rw [if_pos h1]
      left
      exact handleDefault_registry us r
    · rw [if_neg h1]
      by_cases h2 : r.path = "/login"
      · rw [if_pos h2]
        rcases handleLogin_registry us freshId r with h | ⟨hp, hv, h⟩
        · left; exact h
        · right; exact ⟨h2, hp, hv, h⟩
      · rw [if_neg h2]
        by_cases h3 : r.path = "/logout"
        · rw [if_pos h3]; left; rfl
        · rw [if_neg h3]
          by_cases h4 : r.path = "/time"
          · rw [if_pos h4]; left; rfl
          · rw [if_neg h4]; left; rfl
  refine ⟨hmain, ?_⟩
  rcases hmain with h | ⟨_, _, _, h⟩
  · rw [h]
    exact hnodup
  · rw [h, List.map_cons]
    have hid : (NewPerson freshId r.formName).id = freshId := rfl
    rw [hid]
    refine List.nodup_cons.mpr ⟨?_, hnodup⟩
    intro hmem
    rw [List.mem_map] at hmem
    obtain ⟨p, hp, hpid⟩ := hmem
    exact hfresh p hp hpid

theorem registry_append_only_witness :
    ((route [] "id-1" "5:59:36 PM" ⟨"POST", "/login", none, "Jane Doe"⟩).2 = [] ∨
      ("/login" = "/login" ∧ "POST" = "POST" ∧ validNameStr "Jane Doe" = true ∧
        (route [] "id-1" "5:59:36 PM" ⟨"POST", "/login", none, "Jane Doe"⟩).2 =
          [NewPerson "id-1" "Jane Doe"])) ∧
    ((route [] "id-1" "5:59:36 PM" ⟨"POST", "/login", none, "Jane Doe"⟩).2.map Person.id).Nodup :=
  registry_append_only [] "id-1" "5:59:36 PM" ⟨"POST", "/login", none, "Jane Doe"⟩
    (by simp) (by simp)

/-- C7: the logout route is idempotent: whatever the registry state and
request (cookie present or not), the response is always the 200 render of
the logged-out view with a Set-Cookie of Max-Age -1, the registry is
unchanged, and a repeated logout produces the identical result. -/
theorem logout_idempotent (us : Users) (r r2 : Request) :
    handleLogout us r =
      ({ status := 200, redirect := none,
         setCookie := some ⟨"uuid", "deleted", "/", -1⟩,
         rendered := some ⟨"logged-out", ViewData.empty⟩ }, us) ∧
    handleLogout (handleLogout us r).2 r2 = handleLogout us r :=
  ⟨rfl, rfl⟩

/-- C8: every request to /time yields a 200 render of the time view
carrying the current formatted time and the name resolved from the cookie
identifier, with the empty string when the cookie is absent or the
identifier misses in the registry; misses never change the status. -/
theorem time_route_response (us : Users) (now : String) (r : Request)
    (hids : ∀ p ∈ us, p.id ≠ "") :
    handleTime us now r =
      ({ status := 200, redirect := none, setCookie := none,
         rendered := some ⟨"time",
           ViewData.timeParams now (us.name (idFromUUIDCookie r))⟩ }, us) ∧
    (r.cookie = none → us.name (idFromUUIDCookie r) = "") ∧
    (∀ id, r.cookie = some id → us.find? (fun p => p.id == id) = none →
      us.name (idFromUUIDCookie r) = "") := by
  refine ⟨rfl, ?_, ?_⟩
  · intro hc
    have hid : idFromUUIDCookie r = "" := by simp [idFromUUIDCookie, hc]
    rw [hid]
    exact Users.name_empty_of_no_id us "" hids
  · intro id hc hfind
    have hid : idFromUUIDCookie r = id := by simp [idFromUUIDCookie, hc]
    rw [hid]
    exact Users.name_eq_of_find?_none us id hfind

theorem time_route_response_witness :
    handleTime [] "5:59:36 PM" ⟨"GET", "/time", none, ""⟩ =
      ({ status := 200, redirect := none, setCookie := none,
         rendered := some ⟨"time", ViewData.timeParams "5:59:36 PM" ""⟩ }, []) ∧
    Users.name [] (idFromUUIDCookie ⟨"GET", "/time", none, ""⟩) = "" := by
  obtain ⟨h1, h2, h3⟩ :=
    time_route_response [] "5:59:36 PM" ⟨"GET", "/time", none, ""⟩ (by simp)
  exact ⟨h1, h2 rfl⟩

/-- C9: the server variant of src/server.go serves on the configured
--port (default 8080) and with -V prints the version line and exits with
the non-zero code 1 without serving; the older variant in
src/unnamed/part_000 builds its listen address before parsing flags, so it
serves on :8080 even when started with --port 9001 — the configured port
never takes effect there. -/
theorem port_flag_and_version_behavior :
    serverMain "8080" false = MainOutcome.serve ":8080" ∧
    serverMain "9001" false = MainOutcome.serve ":9001" ∧
    serverMain "9001" true =
      MainOutcome.printVersionAndExit "Version number: v1.0.8 \n" 1 ∧
    part000Main "9001" false = MainOutcome.serve ":8080" ∧
    part000Main "9001" false ≠ MainOutcome.serve ":9001" := by
  refine ⟨rfl, rfl, rfl, rfl, by decide⟩

/-- C10: a /login request whose method is neither GET nor POST writes no
body, sets no cookie, leaves the registry untouched, and ends with the
implicit empty 200 response. -/
theorem login_other_method_noop (us : Users) (freshId : String) (r : Request)
    (hg : r.method ≠ "GET") (hp : r.method ≠ "POST") :
    handleLogin us freshId r =
      ({ status := 200, redirect := none, setCookie := none,
         rendered := none }, us) := by
  simp [handleLogin, hg, hp]

theorem login_other_method_noop_witness :
    handleLogin [] "id-1" ⟨"PUT", "/login", none, "Jane Doe"⟩ =
      ({ status := 200, redirect := none, setCookie := none,
         rendered := none }, []) :=
  login_other_method_noop [] "id-1" ⟨"PUT", "/login", none, "Jane Doe"⟩
    (by decide) (by decide)

end Timeserver
